import Mathlib

/-!
Verification of the `InViewport` component (`src/index.tsx`) of
react-native-viewport.

Numbers are modelled as rationals (`ℚ`); division by zero is the guarded
division of `ℚ` (`x / 0 = 0`).  The component's measured state, the window
dimensions, the threshold-validation logic of `isInViewPort`
(lines 182-194), the visibility predicate (lines 196-208), the
transition-gated callback dispatch (lines 210-214) and the lifecycle
methods `componentDidMount` / `componentDidUpdate` / `startWatching` /
`stopWatching` are embedded below.
-/

namespace InViewport

/-- The component state (`InViewportState`, lines 32-49): the measured
rectangle fields set by `measure` in `startWatching`. -/
structure InViewportState where
  rectTop : ℚ
  rectBottom : ℚ
  rectHeight : ℚ
  rectWidth : ℚ
deriving DecidableEq

/-- Result of `Dimensions.get` (used at line 196): window width and height. -/
structure WindowDimensions where
  width : ℚ
  height : ℚ
deriving DecidableEq

/-- Threshold handling of `isInViewPort`, lines 182-194.  `threshold` is the
optional `threshold` prop; the result is the pair of the effective
`visiblePercentage` and whether `console.error` was called.  The outer
branch `if (this.props?.threshold)` is JavaScript truthiness: it is skipped
when the prop is absent or equal to `0`. -/
def visiblePercentageOf (threshold : Option ℚ) : ℚ × Bool :=
  match threshold with
  | none => (100, false)
  | some t =>
      if t = 0 then (100, false)
      else if t ≤ 0 ∨ 1 < t then (100, true)
      else (t * 100, false)

/-- The `isVisible` value computed by `isInViewPort`, lines 196-208:
`visibleHeight = min(rectBottom, window.height) - max(rectTop, 0)`,
`visibility = visibleHeight / rectHeight * 100`, and
`isVisible = rectBottom !== 0 && visibility >= visiblePercentage
&& rectWidth > 0 && rectWidth <= window.width`. -/
def isVisible (s : InViewportState) (w : WindowDimensions)
    (threshold : Option ℚ) : Bool :=
  let visiblePercentage := (visiblePercentageOf threshold).1
  let visibleHeight := min s.rectBottom w.height - max s.rectTop 0
  let visibility := visibleHeight / s.rectHeight * 100
  decide (s.rectBottom ≠ 0) && decide (visibility ≥ visiblePercentage) &&
    decide (s.rectWidth > 0) && decide (s.rectWidth ≤ w.width)

/-- One run of `isInViewPort` (lines 176-215) from a given `lastValue`:
returns the new `lastValue` and, when the computed value differs from
`lastValue` (lines 210-214), the value passed to `handleVisibilityChange`;
`none` means the callback was not scheduled. -/
def isInViewPort (threshold : Option ℚ) (s : InViewportState)
    (w : WindowDimensions) (lastValue : Option Bool) :
    Option Bool × Option Bool :=
  let isV := isVisible s w threshold
  if lastValue = some isV then (lastValue, none)
  else (some isV, some isV)

/-- The mutable instance fields relevant to the lifecycle claims:
`lastValue` (line 61, `boolean | null`) and whether the polling interval of
`startWatching` / `stopWatching` is running. -/
structure Watcher where
  lastValue : Option Bool
  timerRunning : Bool
deriving DecidableEq

/-- The zero-initialised component state set in the constructor, line 66. -/
def initialState : InViewportState := ⟨0, 0, 0, 0⟩

/-- `componentDidMount`, lines 90-99: when not disabled, start the timer and
run the initial `isInViewPort` check against the constructor state with
`lastValue = null`.  Returns the resulting watcher fields and the value
scheduled for the callback, if any. -/
def componentDidMount (disabled : Bool) (threshold : Option ℚ)
    (w : WindowDimensions) : Watcher × Option Bool :=
  if disabled then (⟨none, false⟩, none)
  else
    let r := isInViewPort threshold initialState w none
    (⟨r.1, true⟩, r.2)

/-- `componentDidUpdate`, lines 108-117: when the `disabled` prop changed,
either `stopWatching` (clear the interval) or reset `lastValue = null` and
`startWatching`. -/
def componentDidUpdate (prevDisabled : Bool) (disabled : Bool)
    (c : Watcher) : Watcher :=
  if prevDisabled ≠ disabled then
    if disabled then { c with timerRunning := false }
    else { lastValue := none, timerRunning := true }
  else c

/-- One timer tick of `startWatching`, lines 140-155: ticks happen only
while the interval is running; each tick runs `isInViewPort` on the current
measured state. -/
def tick (threshold : Option ℚ) (s : InViewportState) (w : WindowDimensions)
    (c : Watcher) : Watcher × Option Bool :=
  if c.timerRunning then
    let r := isInViewPort threshold s w c.lastValue
    ({ c with lastValue := r.1 }, r.2)
  else (c, none)

/-- Helper: for a valid supplied threshold `t ∈ (0, 1]`, the visibility
classification unfolds to the spec's four-conjunct predicate. -/
theorem isVisible_spec_aux (s : InViewportState) (w : WindowDimensions)
    (t : ℚ) (h0 : 0 < t) (h1 : t ≤ 1) :
    isVisible s w (some t) = true ↔
      (s.rectBottom ≠ 0 ∧
        (min s.rectBottom w.height - max s.rectTop 0) / s.rectHeight * 100
          ≥ t * 100 ∧
        s.rectWidth > 0 ∧ s.rectWidth ≤ w.width) := by
  have ht : ¬ t = 0 := ne_of_gt h0
  have ht2 : ¬ (t ≤ 0 ∨ 1 < t) := by
    push_neg
    exact ⟨h0, h1⟩
  simp only [isVisible, visiblePercentageOf, if_neg ht, if_neg ht2,
    Bool.and_eq_true, decide_eq_true_eq, and_assoc]

/-- Helper: the negative form of `isVisible_spec_aux`. -/
theorem isVisible_spec_aux_false (s : InViewportState) (w : WindowDimensions)
    (t : ℚ) (h0 : 0 < t) (h1 : t ≤ 1)
    (h : ¬ (s.rectBottom ≠ 0 ∧
      (min s.rectBottom w.height - max s.rectTop 0) / s.rectHeight * 100
        ≥ t * 100 ∧
      s.rectWidth > 0 ∧ s.rectWidth ≤ w.width)) :
    isVisible s w (some t) = false := by
  rw [← isVisible_spec_aux s w t h0 h1] at h
  exact Bool.not_eq_true _ ▸ eq_false_of_ne_true h

/-- C1: for every measured state and window dimensions and every supplied
threshold in (0, 1], `isInViewPort` classifies the component visible iff
`rectBottom ≠ 0` and the visible percentage
`(min(rectBottom, windowHeight) - max(rectTop, 0)) / rectHeight * 100` is at
least `threshold * 100` and `0 < rectWidth ≤ windowWidth`. -/
theorem visibility_predicate_matches_spec (s : InViewportState)
    (w : WindowDimensions) (t : ℚ) (h0 : 0 < t) (h1 : t ≤ 1) :
    isVisible s w (some t) = true ↔
      (s.rectBottom ≠ 0 ∧
        (min s.rectBottom w.height - max s.rectTop 0) / s.rectHeight * 100
          ≥ t * 100 ∧
        s.rectWidth > 0 ∧ s.rectWidth ≤ w.width) :=
  isVisible_spec_aux s w t h0 h1

/-- Witness for C1: a rectangle of height 100 fully inside a 200×300 window
with threshold 1/2 is classified visible. -/
theorem visibility_predicate_matches_spec_witness :
    isVisible ⟨0, 100, 100, 50⟩ ⟨200, 300⟩ (some (1/2)) = true :=
  (visibility_predicate_matches_spec ⟨0, 100, 100, 50⟩ ⟨200, 300⟩ (1/2)
    (by norm_num) (by norm_num)).mpr (by norm_num)

/-- C2: at threshold 0.7, a state with `rectHeight = 100`, `rectBottom ≠ 0`
and `0 < rectWidth ≤ windowWidth` is classified visible when its visible
height is exactly 70 (70%), and not visible when it is 69 (69%). -/
theorem threshold_seventy_boundary (s : InViewportState)
    (w : WindowDimensions) (hh : s.rectHeight = 100) (hb : s.rectBottom ≠ 0)
    (hw0 : s.rectWidth > 0) (hw1 : s.rectWidth ≤ w.width) :
    (min s.rectBottom w.height - max s.rectTop 0 = 70 →
      isVisible s w (some (7/10)) = true) ∧
    (min s.rectBottom w.height - max s.rectTop 0 = 69 →
      isVisible s w (some (7/10)) = false) := by
  constructor
  · intro hv
    exact (isVisible_spec_aux s w (7/10) (by norm_num) (by norm_num)).mpr
      ⟨hb, by rw [hv, hh]; norm_num, hw0, hw1⟩
  · intro hv
    refine isVisible_spec_aux_false s w (7/10) (by norm_num) (by norm_num) ?_
    rintro ⟨-, hvis, -, -⟩
    rw [hv, hh] at hvis
    norm_num at hvis

/-- Witness for C2: with a 100×100 window, a width-50 rectangle spanning
rows 30..130 is exactly 70% visible and classified visible at threshold
0.7; shifted to rows 31..131 it is 69% visible and classified not
visible. -/
theorem threshold_seventy_boundary_witness :
    isVisible ⟨30, 130, 100, 50⟩ ⟨100, 100⟩ (some (7/10)) = true ∧
    isVisible ⟨31, 131, 100, 50⟩ ⟨100, 100⟩ (some (7/10)) = false :=
  ⟨(threshold_seventy_boundary ⟨30, 130, 100, 50⟩ ⟨100, 100⟩ rfl
      (by norm_num) (by norm_num) (by norm_num)).1 (by norm_num),
   (threshold_seventy_boundary ⟨31, 131, 100, 50⟩ ⟨100, 100⟩ rfl
      (by norm_num) (by norm_num) (by norm_num)).2 (by norm_num)⟩

/-- Counterexample to C3 as stated: `threshold = 0` lies outside (0, 1]
(`0 ≤ 0`), yet no error is logged: the JavaScript truthiness test
`if (this.props?.threshold)` skips the validation branch entirely for the
value 0 (the default 100 is still used). -/
theorem threshold_zero_logs_no_error :
    (0 : ℚ) ≤ 0 ∧ visiblePercentageOf (some 0) = (100, false) :=
  ⟨le_refl 0, by simp [visiblePercentageOf]⟩

/-- C3 (amended): a supplied nonzero threshold outside (0, 1] (that is,
`t < 0` or `t > 1`) logs an error and the default 100% is used; a supplied
threshold of exactly 0 is falsy, so the validation branch is skipped: the
default 100% is used but no error is logged; a threshold inside (0, 1]
yields the effective percentage `t * 100` with no error. -/
theorem threshold_validation_amended (t : ℚ) :
    (t < 0 ∨ 1 < t → visiblePercentageOf (some t) = (100, true)) ∧
    (t = 0 → visiblePercentageOf (some t) = (100, false)) ∧
    (0 < t → t ≤ 1 → visiblePercentageOf (some t) = (t * 100, false)) := by
  refine ⟨?_, ?_, ?_⟩
  · rintro (h | h)
    · have ht : ¬ t = 0 := ne_of_lt h
      simp [visiblePercentageOf, ht, le_of_lt h]
    · have ht : ¬ t = 0 := by positivity
      have h2 : ¬ t ≤ 0 := not_le.mpr (lt_trans one_pos h)
      simp [visiblePercentageOf, ht, h2, h]
  · intro h
    simp [visiblePercentageOf, h]
  · intro h0 h1
    have ht : ¬ t = 0 := ne_of_gt h0
    have h2 : ¬ (t ≤ 0 ∨ 1 < t) := by
      push_neg
      exact ⟨h0, h1⟩
    simp [visiblePercentageOf, ht, if_neg h2]

/-- Witness for C3 (amended): threshold -1 logs an error and defaults,
threshold 0 silently defaults, threshold 1/2 yields 50% with no error. -/
theorem threshold_validation_amended_witness :
    visiblePercentageOf (some (-1)) = (100, true) ∧
    visiblePercentageOf (some 0) = (100, false) ∧
    visiblePercentageOf (some (1/2)) = (50, false) :=
  ⟨(threshold_validation_amended (-1)).1 (Or.inl (by norm_num)),
   (threshold_validation_amended 0).2.1 rfl,
   by rw [(threshold_validation_amended (1/2)).2.2 (by norm_num)
       (by norm_num)]; norm_num⟩

/-- C4: each `isInViewPort` run updates `lastValue` to the freshly computed
value, and schedules the callback iff that value differs from the previous
`lastValue`; a run computing the same value as `lastValue` never re-invokes
the callback. -/
theorem callback_only_on_transition (t : Option ℚ) (s : InViewportState)
    (w : WindowDimensions) (lv : Option Bool) :
    (isInViewPort t s w lv).1 = some (isVisible s w t) ∧
      ((isInViewPort t s w lv).2 = none ↔ lv = some (isVisible s w t)) := by
  unfold isInViewPort
  by_cases h : lv = some (isVisible s w t) <;> simp [h]

/-- C5: every rectangle fully inside the window (`rectTop ≥ 0`,
`rectBottom ≤ windowHeight`, `rectHeight = rectBottom - rectTop > 0`,
`0 < rectWidth ≤ windowWidth`) is classified visible at threshold 1.0. -/
theorem fully_inside_visible_at_threshold_one (s : InViewportState)
    (w : WindowDimensions) (htop : 0 ≤ s.rectTop)
    (hbot : s.rectBottom ≤ w.height)
    (hh : s.rectHeight = s.rectBottom - s.rectTop) (hpos : 0 < s.rectHeight)
    (hw0 : s.rectWidth > 0) (hw1 : s.rectWidth ≤ w.width) :
    isVisible s w (some 1) = true := by
  refine (isVisible_spec_aux s w 1 one_pos le_rfl).mpr ⟨?_, ?_, hw0, hw1⟩
  · have : 0 < s.rectBottom := by
      have := hh ▸ hpos
      linarith
    exact ne_of_gt this
  · rw [min_eq_left hbot, max_eq_left htop, ← hh,
      div_self (ne_of_gt hpos)]

/-- Witness for C5: the rectangle spanning rows 10..60 with width field 30
inside a 100×100 window is visible at threshold 1. -/
theorem fully_inside_visible_at_threshold_one_witness :
    isVisible ⟨10, 60, 50, 30⟩ ⟨100, 100⟩ (some 1) = true :=
  fully_inside_visible_at_threshold_one ⟨10, 60, 50, 30⟩ ⟨100, 100⟩
    (by norm_num) (by norm_num) (by norm_num) (by norm_num) (by norm_num)
    (by norm_num)

/-- C6: every rectangle (so `rectHeight ≥ 0`) with zero overlap with the
window (`min(rectBottom, windowHeight) - max(rectTop, 0) ≤ 0`) is
classified not visible, for every valid threshold in (0, 1]. -/
theorem zero_overlap_not_visible (s : InViewportState) (w : WindowDimensions)
    (t : ℚ) (hov : min s.rectBottom w.height - max s.rectTop 0 ≤ 0)
    (hh : 0 ≤ s.rectHeight) (h0 : 0 < t) (h1 : t ≤ 1) :
    isVisible s w (some t) = false := by
  refine isVisible_spec_aux_false s w t h0 h1 ?_
  rintro ⟨-, hvis, -, -⟩
  have hq : (min s.rectBottom w.height - max s.rectTop 0) / s.rectHeight
      ≤ 0 := div_nonpos_of_nonpos_of_nonneg hov hh
  have hvis' : (min s.rectBottom w.height - max s.rectTop 0) /
      s.rectHeight * 100 ≤ 0 := by nlinarith
  have ht : 0 < t * 100 := by positivity
  linarith [ge_iff_le.mp hvis]

/-- Witness for C6: a rectangle spanning rows 200..300, entirely below a
100-row window, is not visible at threshold 1/2. -/
theorem zero_overlap_not_visible_witness :
    isVisible ⟨200, 300, 100, 50⟩ ⟨100, 100⟩ (some (1/2)) = false :=
  zero_overlap_not_visible ⟨200, 300, 100, 50⟩ ⟨100, 100⟩ (1/2)
    (by norm_num) (by norm_num) (by norm_num) (by norm_num)

/-- C7: when `disabled` flips from false to true, `componentDidUpdate`
stops the timer, so no subsequent tick produces a callback; when it flips
from true to false, `lastValue` is reset to null and the timer restarted,
so the next check schedules the callback whatever boolean it computes —
even one equal to the last value reported before disabling. -/
theorem disabled_toggle_behavior :
    (∀ c : Watcher, (componentDidUpdate false true c).timerRunning = false) ∧
    (∀ (c : Watcher) (t : Option ℚ) (s : InViewportState)
        (w : WindowDimensions),
      (tick t s w (componentDidUpdate false true c)).2 = none) ∧
    (∀ c : Watcher, componentDidUpdate true false c = ⟨none, true⟩) ∧
    (∀ (t : Option ℚ) (s : InViewportState) (w : WindowDimensions),
      (tick t s w ⟨none, true⟩).2 = some (isVisible s w t)) := by
  refine ⟨?_, ?_, ?_, ?_⟩
  · intro c
    simp [componentDidUpdate]
  · intro c t s w
    simp [tick, componentDidUpdate]
  · intro c
    simp [componentDidUpdate]
  · intro t s w
    simp [tick, isInViewPort]

/-- C8: mounting with `disabled = false` runs the initial check against the
zero-initialised state; `rectBottom = 0` makes `isVisible = false` for any
threshold and window, and since `lastValue` starts as null the callback is
scheduled with `false` — the first value ever reported is `false`. -/
theorem mount_reports_false_first (threshold : Option ℚ)
    (w : WindowDimensions) :
    componentDidMount false threshold w = (⟨some false, true⟩, some false) := by
  have hv : isVisible initialState w threshold = false := by
    simp [isVisible, initialState]
  simp [componentDidMount, isInViewPort, hv]

/-- C9: the classification is antitone in the threshold: for valid
thresholds `t1 ≤ t2` in (0, 1], visibility at `t2` implies visibility at
`t1`. -/
theorem visibility_antitone_in_threshold (s : InViewportState)
    (w : WindowDimensions) (t1 t2 : ℚ) (h0 : 0 < t1) (h12 : t1 ≤ t2)
    (h1 : t2 ≤ 1) (hvis : isVisible s w (some t2) = true) :
    isVisible s w (some t1) = true := by
  obtain ⟨hb, hv, hw0, hw1⟩ :=
    (isVisible_spec_aux s w t2 (lt_of_lt_of_le h0 h12) h1).mp hvis
  refine (isVisible_spec_aux s w t1 h0 (le_trans h12 h1)).mpr
    ⟨hb, ?_, hw0, hw1⟩
  have : t1 * 100 ≤ t2 * 100 := by nlinarith
  linarith [ge_iff_le.mp hv]

/-- Witness for C9: a fully visible rectangle classified visible at
threshold 1 is also classified visible at threshold 1/2. -/
theorem visibility_antitone_in_threshold_witness :
    isVisible ⟨0, 100, 100, 50⟩ ⟨100, 100⟩ (some (1/2)) = true :=
  visibility_antitone_in_threshold ⟨0, 100, 100, 50⟩ ⟨100, 100⟩ (1/2) 1
    (by norm_num) (by norm_num) (by norm_num)
    ((isVisible_spec_aux ⟨0, 100, 100, 50⟩ ⟨100, 100⟩ 1 one_pos le_rfl).mpr
      (by norm_num))

/-- C10: the division `visibleHeight / rectHeight` has no zero guard, but
under the guarded-division semantics of `ℚ` (`x / 0 = 0`) every state with
`rectHeight = 0` yields `visibility = 0`, which fails
`visibility ≥ threshold * 100` for every valid threshold in (0, 1]; the
division-by-zero branch never classifies the component visible. -/
theorem zero_height_never_visible (s : InViewportState)
    (w : WindowDimensions) (t : ℚ) (hh : s.rectHeight = 0) (h0 : 0 < t)
    (h1 : t ≤ 1) : isVisible s w (some t) = false := by
  refine isVisible_spec_aux_false s w t h0 h1 ?_
  rintro ⟨-, hvis, -, -⟩
  rw [hh, div_zero, zero_mul] at hvis
  have ht : 0 < t * 100 := by positivity
  linarith [ge_iff_le.mp hvis]

/-- Witness for C10: a degenerate zero-height rectangle with nonzero
`rectBottom` is not visible at threshold 7/10. -/
theorem zero_height_never_visible_witness :
    isVisible ⟨5, 5, 0, 50⟩ ⟨100, 100⟩ (some (7/10)) = false :=
  zero_height_never_visible ⟨5, 5, 0, 50⟩ ⟨100, 100⟩ (7/10) rfl
    (by norm_num) (by norm_num)

end InViewport
